import Mathlib

/-!
# ArticleManager: a data-access layer over the `articles` table

Shallow embedding of `ArticleManager.go`.  The package is a thin translator
between typed operations and `database/sql` calls, so the embedding has two
layers:

* the collaborator (`database/sql` and the Postgres driver) is represented by
  its answers: an `sql.DB` value is the record of what each call on the handle
  answers, `sql.Rows` is the sequence of rows a result set will still yield
  together with the error that ends the iteration, `sql.Result` is the pair of
  answers of a finished statement;
* the six functions of the package (`Connect`, `Create`, `GetAll`, `GetById`,
  `Update`, `Delete`) are translated line by line on top of it.

Go's `(value, error)` results of the package's own functions are pairs whose
second component is `Option Error` (`none` is the nil error).  `int64` values
are `Int`: no operation of the package does arithmetic on them.
-/

set_option linter.dupNamespace false

/-! ## Go errors -/

/-- Go `error` values that can reach the package.  Values are compared by
identity in Go; the three constructors keep apart the sentinel of
`database/sql`, every other value handed over by the collaborator, and the
values built in the package with `errors.New`. -/
inductive Error where
  /-- the sentinel `sql.ErrNoRows` -/
  | ErrNoRows
  /-- any other error value reported by `database/sql` or the driver -/
  | external (msg : String)
  /-- a value built by `errors.New(msg)` -/
  | errorString (msg : String)
  deriving DecidableEq, Repr

namespace errors

/-- Go's `errors.New`. -/
def New (text : String) : Error := Error.errorString text

end errors

/-- The `Error()` method of the `error` interface. -/
def Error.Error : Error → String
  | .ErrNoRows => "sql: no rows in result set"
  | .external msg => msg
  | .errorString msg => msg

/-! ## The collaborator: `database/sql` -/

namespace sql

/-- The sentinel `sql.ErrNoRows`. -/
def ErrNoRows : Error := Error.ErrNoRows

/-- An argument bound to a placeholder (`$1`, `$2`, ...) of a statement. -/
inductive Arg where
  | int64 (v : Int)
  | string (s : String)
  deriving DecidableEq, Repr

/-- One column of a row as the driver delivers it, given by what the
conversion of `database/sql` answers when the column is assigned to an
`*int64` destination and to a `*string` destination. -/
structure Cell where
  asInt64 : Except Error Int
  asString : Except Error String

/-- The result set of a query: the rows that `Next` will still yield, the error
that ends the iteration (`none` when the rows simply run out), and the answer
of `Close`. -/
structure Rows where
  pending : List (List Cell)
  lasterr : Option Error
  closeErr : Option Error

/-- The value `QueryRow` returns: a deferred error, or the result set whose
first row `Scan` reads. -/
structure Row where
  err : Option Error
  rows : Rows

/-- The `sql.Result` of an executed statement. -/
structure Result where
  LastInsertId : Except Error Int
  RowsAffected : Except Error Int

/-- A database handle, `*sql.DB`, as the answers of its calls. -/
structure DB where
  Ping : Option Error
  QueryRow : String → List Arg → Row
  Query : String → List Arg → Except Error Rows
  Exec : String → List Arg → Except Error Result

/-- The error of `Rows.Scan` when the number of destinations differs from the
number of columns. -/
def errDestCount (columns dests : Nat) : Error :=
  Error.external ("sql: expected " ++ toString columns ++
    " destination arguments in Scan, not " ++ toString dests)

/-- The error `Rows.Err` reports after `Next` returned false. -/
def Rows.Err (rs : Rows) : Option Error := rs.lasterr

/-- The answer of `Rows.Close`. -/
def Rows.Close (rs : Rows) : Option Error := rs.closeErr

/-- The method `(*Row).Scan`: the deferred error of the query if there is one;
`ErrNoRows` (or the iteration error) when the result set has no first row;
otherwise the scan of the first row followed by `Close`, whose error is
returned after the destinations were written.  `scan` is the assignment of the
current row to the caller's destinations. -/
def Row.Scan {δ : Type} (r : Row) (scan : List Cell → δ → δ × Option Error) (dest : δ) :
    δ × Option Error :=
  match r.err with
  | some e => (dest, some e)
  | none =>
    match r.rows.pending with
    | [] =>
      match r.rows.Err with
      | some e => (dest, some e)
      | none => (dest, some ErrNoRows)
    | cols :: _ =>
      match scan cols dest with
      | (dest, some e) => (dest, some e)
      | (dest, none) => (dest, r.rows.Close)

end sql

/-! ## The package -/

namespace ArticleManager

/-- Article is the representation of a article. -/
structure Article where
  Id : Int
  Title : String
  Body : String
  Author : String
  deriving DecidableEq, Repr

/-- The zero value `Article{}`. -/
def Article.zero : Article := ⟨0, "", "", ""⟩

/-- The handle of the package: `type DB struct { *sql.DB }`. -/
structure DB where
  DB : sql.DB

/-- The call `rows.Scan(&insertedId)` on the current row `cols`: one
destination of type `*int64`. -/
def scanInsertedId (cols : List sql.Cell) (insertedId : Int) : Int × Option Error :=
  match cols with
  | [c0] =>
    match c0.asInt64 with
    | .error e => (insertedId, some e)
    | .ok v => (v, none)
  | _ => (insertedId, some (sql.errDestCount cols.length 1))

/-- The call `rows.Scan(&article.Id, &article.Title, &article.Body,
&article.Author)` on the current row `cols`: the destinations are assigned in
order and the first failing conversion stops the scan, leaving the later
fields of `article` as they were. -/
def scanArticle (cols : List sql.Cell) (article : Article) : Article × Option Error :=
  match cols with
  | [c0, c1, c2, c3] =>
    match c0.asInt64 with
    | .error e => (article, some e)
    | .ok id =>
      let article := { article with Id := id }
      match c1.asString with
      | .error e => (article, some e)
      | .ok title =>
        let article := { article with Title := title }
        match c2.asString with
        | .error e => (article, some e)
        | .ok body =>
          let article := { article with Body := body }
          match c3.asString with
          | .error e => (article, some e)
          | .ok author => ({ article with Author := author }, none)
  | _ => (article, some (sql.errDestCount cols.length 4))

/-- Connect takes a `database/sql` connection string as parameter and returns
a db.  `sqlOpen` is `sql.Open`. -/
def Connect (sqlOpen : String → String → Except Error sql.DB) (dataSourceName : String) :
    Option DB × Option Error :=
  match sqlOpen "postgres" dataSourceName with
  | .error err => (none, some err)
  | .ok db =>
    match db.Ping with
    | some err => (none, some err)
    | none => (some ⟨db⟩, none)

/-- The statement of `Create`. -/
def createStatement : String :=
  "INSERT INTO articles (title, body, author)\n\t\t\t\t\tVALUES ($1, $2, $3)\n\t\t\t\t\tRETURNING id"

/-- The call `db.QueryRow(sqlStatement, title, body, author).Scan(&insertedId)`
of `Create`, started with `insertedId = 0`. -/
def createQuery (db : DB) (title body author : String) : Int × Option Error :=
  (db.DB.QueryRow createStatement [.string title, .string body, .string author]).Scan
    scanInsertedId 0

/-- Create creates a new article into db. -/
def Create (db : DB) (title body author : String) : Article × Option Error :=
  match createQuery db title body author with
  | (_, some err) => (Article.zero, some err)
  | (insertedId, none) => (⟨insertedId, title, body, author⟩, none)

/-- The statement of `GetAll`. -/
def getAllStatement : String := "SELECT id, title, body, author FROM articles"

/-- The loop `for rows.Next() { ... }` of `GetAll`, on the rows still to come:
`article` is the scratch variable declared before the loop and `articles` the
slice built so far.  `Next` returns false when no row is left, whatever ended
the iteration. -/
def GetAll.loop (article : Article) (articles : List Article) :
    List (List sql.Cell) → Option (List Article) × Option Error
  | [] => (some articles, none)
  | cols :: rest =>
    match scanArticle cols article with
    | (_, some err) => (none, some err)
    | (article, none) => GetAll.loop article (articles ++ [article]) rest

/-- GetAll returns all the articles into the db.  A slice is `Option (List _)`
with `none` the nil slice. -/
def GetAll (db : DB) : Option (List Article) × Option Error :=
  match db.DB.Query getAllStatement [] with
  | .error err => (none, some err)
  | .ok rows => GetAll.loop Article.zero [] rows.pending

/-- The statement of `GetById`. -/
def getByIdStatement : String := "SELECT id, title, body, author FROM articles WHERE id = $1"

/-- The call `db.QueryRow(..., id).Scan(&article.Id, &article.Title,
&article.Body, &article.Author)` of `GetById`, started with the zero article. -/
def getByIdQuery (db : DB) (id : Int) : Article × Option Error :=
  (db.DB.QueryRow getByIdStatement [.int64 id]).Scan scanArticle Article.zero

/-- GetById returns the article that matches the id. -/
def GetById (db : DB) (id : Int) : Article × Option Error :=
  match getByIdQuery db id with
  | (_, some err) => (Article.zero, some err)
  | (article, none) => (article, none)

/-- The statement of `Update`. -/
def updateStatement : String :=
  "UPDATE articles\n\t\t\t\t\tSET title = $2, body = $3, author = $4\n\t\t\t\t\tWHERE id = $1"

/-- The call `db.Exec(sqlStatement, article.Id, article.Title, article.Body,
article.Author)` of `Update`. -/
def updateExec (db : DB) (article : Article) : Except Error sql.Result :=
  db.DB.Exec updateStatement
    [.int64 article.Id, .string article.Title, .string article.Body, .string article.Author]

/-- Update updates an article. -/
def Update (db : DB) (article : Article) : Article × Option Error :=
  match updateExec db article with
  | .error err => (Article.zero, some err)
  | .ok result =>
    match result.RowsAffected with
    | .error err => (Article.zero, some err)
    | .ok count =>
      if count = 0 then (Article.zero, some (errors.New "No row updated"))
      else (article, none)

/-- The statement of `Delete`. -/
def deleteStatement : String := "DELETE FROM articles WHERE id = $1"

/-- Delete deletes an article. -/
def Delete (db : DB) (id : Int) : Option Error :=
  match db.DB.Exec deleteStatement [.int64 id] with
  | .error err => some err
  | .ok _ => none

end ArticleManager

/-! ## Vocabulary of the statements and concrete database answers -/

namespace ArticleManager

/-- The row `cols` has the four columns of the `articles` table and each of
them converts to the corresponding field of `a`. -/
def RowOf (cols : List sql.Cell) (a : Article) : Prop :=
  ∃ c0 c1 c2 c3, cols = [c0, c1, c2, c3] ∧ c0.asInt64 = .ok a.Id ∧
    c1.asString = .ok a.Title ∧ c2.asString = .ok a.Body ∧ c3.asString = .ok a.Author

/-- An integer column: it converts to `int64` as itself and to `string` as its
decimal form. -/
def int64Cell (v : Int) : sql.Cell := ⟨.ok v, .ok (toString v)⟩

/-- A text column whose content is not the decimal form of an integer. -/
def textCell (s : String) : sql.Cell :=
  ⟨.error (.external "converting driver.Value type string to a int64: invalid syntax"), .ok s⟩

/-- A NULL column: it converts to neither destination type. -/
def nullCell : sql.Cell :=
  ⟨.error (.external "converting NULL to int64 is unsupported"),
   .error (.external "converting NULL to string is unsupported")⟩

/-- The row of the `articles` table that stores `a`. -/
def articleRow (a : Article) : List sql.Cell :=
  [int64Cell a.Id, textCell a.Title, textCell a.Body, textCell a.Author]

/-- A complete result set: the rows `rs`, then a plain end of data. -/
def rowsOf (rs : List (List sql.Cell)) : sql.Rows := ⟨rs, none, none⟩

/-- The error of every call on a closed handle. -/
def errClosed : Error := .external "sql: database is closed"

/-- A handle on which every call fails. -/
def closedDB : sql.DB where
  Ping := some errClosed
  QueryRow := fun _ _ => ⟨some errClosed, rowsOf []⟩
  Query := fun _ _ => .error errClosed
  Exec := fun _ _ => .error errClosed

/-- A handle that answers every single-row query with the result set `rows`. -/
def queryRowDB (rows : sql.Rows) : DB :=
  ⟨{ closedDB with Ping := none, QueryRow := fun _ _ => ⟨none, rows⟩ }⟩

/-- A handle that answers every multi-row query with the result set `rows`. -/
def queryDB (rows : sql.Rows) : DB :=
  ⟨{ closedDB with Ping := none, Query := fun _ _ => .ok rows }⟩

/-- A handle that answers every executed statement with `affected` rows. -/
def execDB (affected : Int) : DB :=
  ⟨{ closedDB with Ping := none, Exec := fun _ _ => .ok ⟨.ok 0, .ok affected⟩ }⟩

/-- A handle whose executed statements succeed but cannot report the number of
affected rows. -/
def noCountDB : DB where
  DB := { closedDB with
    Ping := none
    Exec := fun _ _ => .ok ⟨.ok 0, .error (.external "no RowsAffected available")⟩ }

/-- The unique-constraint error of Postgres on the title column. -/
def errDuplicate : Error :=
  .external "pq: duplicate key value violates unique constraint \"articles_title_key\""

/-- A handle whose insert is rejected by a unique constraint. -/
def duplicateDB : DB where
  DB := { closedDB with
    Ping := none
    QueryRow := fun _ _ => ⟨none, ⟨[], some errDuplicate, none⟩⟩ }

/-- The two articles of the tests. -/
def article1 : Article := ⟨1, "title 1", "body 1", "author 1"⟩

/-- The second article of the tests. -/
def article2 : Article := ⟨2, "title 2", "body 2", "author 2"⟩

/-- The error of a connection lost while rows are being read. -/
def errBadConn : Error := .external "driver: bad connection"

/-- A result set that yields one row and then ends on a lost connection. -/
def brokenRows : sql.Rows := ⟨[articleRow article1], some errBadConn, none⟩

/-- An `sql.Open` that accepts every data source name and returns `db`. -/
def openTo (db : sql.DB) : String → String → Except Error sql.DB := fun _ _ => .ok db

/-- An `sql.Open` that rejects every data source name. -/
def openFails : String → String → Except Error sql.DB :=
  fun _ _ => .error (.external "sql: unknown driver \"postgres\" (forgotten import?)")

end ArticleManager

/-! ## Properties -/

namespace ArticleManager

/-- A row that holds the fields of `a` scans to `a`, whatever the scratch
variable held before. -/
theorem scanArticle_of_rowOf {cols : List sql.Cell} {a : Article} (h : RowOf cols a)
    (scratch : Article) : scanArticle cols scratch = (a, none) := by
  obtain ⟨c0, c1, c2, c3, rfl, h0, h1, h2, h3⟩ := h
  simp [scanArticle, h0, h1, h2, h3]

/-- The row built from an article holds its fields. -/
theorem rowOf_articleRow (a : Article) : RowOf (articleRow a) a :=
  ⟨_, _, _, _, rfl, rfl, rfl, rfl, rfl⟩

/-- C1: for every title, body and author, empty ones included, when the insert
query yields the id `i` (no deferred error, a first row of one column that
converts to `i`, a clean close) `Create` returns the article made of `i` and the
three inputs with no error; and `Create` succeeds exactly when the query call
does, for it adds no check of its own. -/
theorem Create_returns_inserted (db : DB) (title body author : String) :
    (∀ (i : Int) (c : sql.Cell) (rest : List (List sql.Cell)),
      (db.DB.QueryRow createStatement [.string title, .string body, .string author]).err = none →
      (db.DB.QueryRow createStatement
        [.string title, .string body, .string author]).rows.pending = [c] :: rest →
      c.asInt64 = .ok i →
      (db.DB.QueryRow createStatement
        [.string title, .string body, .string author]).rows.closeErr = none →
      Create db title body author = (⟨i, title, body, author⟩, none)) ∧
    ((Create db title body author).2 = none ↔ (createQuery db title body author).2 = none) := by
  refine ⟨?_, ?_⟩
  · intro i c rest herr hrow hc hclose
    simp [Create, createQuery, sql.Row.Scan, sql.Rows.Close, scanInsertedId, herr, hrow, hc,
      hclose]
  · unfold Create
    split <;> simp_all

/-- C1 at the inputs of `TestCreate` and at empty strings. -/
theorem Create_returns_inserted_witness :
    Create (queryRowDB (rowsOf [[int64Cell 1]])) "title" "body" "author"
        = (⟨1, "title", "body", "author"⟩, none) ∧
      Create (queryRowDB (rowsOf [[int64Cell 7]])) "" "" "" = (⟨7, "", "", ""⟩, none) :=
  ⟨(Create_returns_inserted (queryRowDB (rowsOf [[int64Cell 1]])) "title" "body" "author").1
      1 (int64Cell 1) [] rfl rfl rfl rfl,
   (Create_returns_inserted (queryRowDB (rowsOf [[int64Cell 7]])) "" "" "").1
      7 (int64Cell 7) [] rfl rfl rfl rfl⟩

/-- C2: when the single-row select for `id` yields a row (no deferred error, a
first row, a clean close), `GetById` returns with no error the article made of
the four fields of that row; in particular, when the row holds the id that a
successful `Create` returned and the three fields it was given, `GetById`
returns what `Create` returned. -/
theorem GetById_returns_row (db : DB) (id : Int) (cols : List sql.Cell)
    (rest : List (List sql.Cell))
    (herr : (db.DB.QueryRow getByIdStatement [.int64 id]).err = none)
    (hrow : (db.DB.QueryRow getByIdStatement [.int64 id]).rows.pending = cols :: rest)
    (hclose : (db.DB.QueryRow getByIdStatement [.int64 id]).rows.closeErr = none) :
    (∀ i t b a, RowOf cols ⟨i, t, b, a⟩ → GetById db id = (⟨i, t, b, a⟩, none)) ∧
    (∀ (db0 : DB) (title body author : String) (created : Article),
      Create db0 title body author = (created, none) → id = created.Id →
      RowOf cols ⟨created.Id, title, body, author⟩ →
      GetById db id = Create db0 title body author) := by
  have key : ∀ x : Article, RowOf cols x → GetById db id = (x, none) := by
    intro x hx
    simp [GetById, getByIdQuery, sql.Row.Scan, sql.Rows.Close, herr, hrow, hclose,
      scanArticle_of_rowOf hx]
  refine ⟨fun i t b a h => key _ h, ?_⟩
  intro db0 title body author created hc _ hrowOf
  rw [hc, key _ hrowOf]
  have hfields : created = ⟨created.Id, title, body, author⟩ := by
    unfold Create at hc
    split at hc
    · simp at hc
    · simp only [Prod.mk.injEq, and_true] at hc
      rw [← hc]
  rw [← hfields]

/-- C2 at the inputs of `TestGetById`: the second article is created, the
select yields its row, and `GetById` returns the created article. -/
theorem GetById_returns_row_witness :
    GetById (queryRowDB (rowsOf [articleRow article2])) 2 = (article2, none) ∧
      GetById (queryRowDB (rowsOf [articleRow article2])) 2
        = Create (queryRowDB (rowsOf [[int64Cell 2]])) "title 2" "body 2" "author 2" :=
  ⟨(GetById_returns_row (queryRowDB (rowsOf [articleRow article2])) 2 (articleRow article2) []
      rfl rfl rfl).1 2 "title 2" "body 2" "author 2" (rowOf_articleRow article2),
   (GetById_returns_row (queryRowDB (rowsOf [articleRow article2])) 2 (articleRow article2) []
      rfl rfl rfl).2 (queryRowDB (rowsOf [[int64Cell 2]])) "title 2" "body 2" "author 2"
      article2 rfl rfl (rowOf_articleRow article2)⟩

/-- C3: when the single-row select for `id` yields no row (no deferred error,
no first row, a plain end of data), `GetById` returns the zero article together
with `sql.ErrNoRows`: a non-nil error, the same value for every handle and
every id. -/
theorem GetById_no_row (db : DB) (id : Int)
    (herr : (db.DB.QueryRow getByIdStatement [.int64 id]).err = none)
    (hrow : (db.DB.QueryRow getByIdStatement [.int64 id]).rows.pending = [])
    (hend : (db.DB.QueryRow getByIdStatement [.int64 id]).rows.lasterr = none) :
    GetById db id = (Article.zero, some sql.ErrNoRows) := by
  simp [GetById, getByIdQuery, sql.Row.Scan, sql.Rows.Err, herr, hrow, hend]

/-- C3 at the input of `TestGetByIdWithWrongId`: an empty result set for id 10. -/
theorem GetById_no_row_witness :
    GetById (queryRowDB (rowsOf [])) 10 = (Article.zero, some sql.ErrNoRows) :=
  GetById_no_row (queryRowDB (rowsOf [])) 10 rfl rfl rfl

/-- C4: when the update statement executes and reports zero affected rows,
`Update` returns the zero article together with an error whose message is
exactly "No row updated"; what it returns is not the input article (the two
differ as soon as the input has a non-zero field). -/
theorem Update_no_row_updated (db : DB) (article : Article) (result : sql.Result)
    (hexec : updateExec db article = .ok result) (hcount : result.RowsAffected = .ok 0) :
    ∃ err, Update db article = (Article.zero, some err) ∧ err.Error = "No row updated" ∧
      (article ≠ Article.zero → (Update db article).1 ≠ article) := by
  refine ⟨errors.New "No row updated", ?_, rfl, ?_⟩
  · simp [Update, hexec, hcount]
  · intro hne
    simp only [Update, hexec, hcount, if_true]
    exact fun h => hne h.symm

/-- C4 at the input of `TestUpdateNoRowAffected`. -/
theorem Update_no_row_updated_witness :
    ∃ err, Update (execDB 0) ⟨12, "new title", "body 1", "author 1"⟩ = (Article.zero, some err) ∧
      err.Error = "No row updated" ∧
      ((⟨12, "new title", "body 1", "author 1"⟩ : Article) ≠ Article.zero →
        (Update (execDB 0) ⟨12, "new title", "body 1", "author 1"⟩).1
          ≠ ⟨12, "new title", "body 1", "author 1"⟩) :=
  Update_no_row_updated (execDB 0) ⟨12, "new title", "body 1", "author 1"⟩ ⟨.ok 0, .ok 0⟩ rfl rfl

/-- C5: `Update` returns the input article itself with no error exactly when
the statement executed, the affected-row count was obtained and that count is
not zero (any other value, also more than one); in every other case it returns
the zero article and a non-nil error. -/
theorem Update_success_iff (db : DB) (article : Article) :
    (Update db article = (article, none) ↔
      ∃ result count, updateExec db article = .ok result ∧
        result.RowsAffected = .ok count ∧ count ≠ 0) ∧
    (Update db article ≠ (article, none) →
      ∃ err, Update db article = (Article.zero, some err)) := by
  unfold Update
  cases hexec : updateExec db article with
  | error e => simp
  | ok result =>
    cases hcount : result.RowsAffected with
    | error e => simp [hcount]
    | ok count =>
      by_cases hz : count = 0
      · simp [hcount, hz]
      · simp [hcount, hz]

/-- C5 at the input of `TestUpdate` (one affected row), with three affected
rows, and on a handle that cannot report the count. -/
theorem Update_success_iff_witness :
    Update (execDB 1) ⟨1, "new title", "body 1", "author 1"⟩
        = (⟨1, "new title", "body 1", "author 1"⟩, none) ∧
      Update (execDB 3) article1 = (article1, none) ∧
      ∃ err, Update noCountDB article1 = (Article.zero, some err) :=
  ⟨(Update_success_iff (execDB 1) ⟨1, "new title", "body 1", "author 1"⟩).1.2
      ⟨⟨.ok 0, .ok 1⟩, 1, rfl, rfl, by decide⟩,
   (Update_success_iff (execDB 3) article1).1.2 ⟨⟨.ok 0, .ok 3⟩, 3, rfl, rfl, by decide⟩,
   (Update_success_iff noCountDB article1).2 (by simp [Update, updateExec, noCountDB])⟩

/-- C6: `Delete` returns the error of the executed statement and nothing else:
the error itself when the execution fails, and no error when it succeeds,
whatever the result says about affected rows (one, zero, or no count at all). -/
theorem Delete_returns_exec_error (db : DB) (id : Int) :
    (∀ e, db.DB.Exec deleteStatement [.int64 id] = .error e → Delete db id = some e) ∧
    (∀ result, db.DB.Exec deleteStatement [.int64 id] = .ok result → Delete db id = none) := by
  unfold Delete
  constructor
  · intro e h
    simp [h]
  · intro result h
    simp [h]

/-- C6 at the input of `TestDelete` (one row removed), at an id that matches
no row (zero rows removed), and on a closed handle. -/
theorem Delete_returns_exec_error_witness :
    Delete (execDB 1) 1 = none ∧ Delete (execDB 0) (-10) = none ∧
      Delete ⟨closedDB⟩ 1 = some errClosed :=
  ⟨(Delete_returns_exec_error (execDB 1) 1).2 ⟨.ok 0, .ok 1⟩ rfl,
   (Delete_returns_exec_error (execDB 0) (-10)).2 ⟨.ok 0, .ok 0⟩ rfl,
   (Delete_returns_exec_error ⟨closedDB⟩ 1).1 errClosed rfl⟩

/-- The loop of `GetAll` on rows that all scan: every row appends its article
to the slice, and the scratch variable never leaks into earlier elements. -/
theorem GetAll_loop_of_rowOf {pending : List (List sql.Cell)} {arts : List Article}
    (h : List.Forall₂ RowOf pending arts) (scratch : Article) (acc : List Article) :
    GetAll.loop scratch acc pending = (some (acc ++ arts), none) := by
  induction h generalizing scratch acc with
  | nil => simp [GetAll.loop]
  | cons hrow _ ih =>
    simp [GetAll.loop, scanArticle_of_rowOf hrow, ih]

/-- Whether a scan fails, and with which error, does not depend on what the
destinations held before. -/
theorem scanArticle_error_indep (cols : List sql.Cell) (s t : Article) :
    (scanArticle cols s).2 = (scanArticle cols t).2 := by
  unfold scanArticle
  split
  · rename_i c0 c1 c2 c3
    cases c0.asInt64 <;> cases c1.asString <;> cases c2.asString <;> cases c3.asString <;> rfl
  · rfl

/-- The loop of `GetAll` stops at the first row whose scan fails and returns
the nil slice with the error of that scan. -/
theorem GetAll_loop_scan_error {before : List (List sql.Cell)} {arts : List Article}
    (h : List.Forall₂ RowOf before arts) (cols : List sql.Cell)
    (after : List (List sql.Cell)) (e : Error)
    (hscan : (scanArticle cols Article.zero).2 = some e) (scratch : Article)
    (acc : List Article) :
    GetAll.loop scratch acc (before ++ cols :: after) = (none, some e) := by
  induction h generalizing scratch acc with
  | nil =>
    have hs : (scanArticle cols scratch).2 = some e := by
      rw [scanArticle_error_indep cols scratch Article.zero, hscan]
    simp only [List.nil_append, GetAll.loop]
    split
    · simp_all
    · simp_all
  | cons hrow _ ih =>
    simp [GetAll.loop, scanArticle_of_rowOf hrow, ih]

/-- Every error the loop of `GetAll` returns is the error of the scan of one of
the rows. -/
theorem GetAll_loop_error_origin (pending : List (List sql.Cell)) (scratch : Article)
    (acc : List Article) (e : Error) (h : (GetAll.loop scratch acc pending).2 = some e) :
    ∃ cols, cols ∈ pending ∧ (scanArticle cols Article.zero).2 = some e := by
  induction pending generalizing scratch acc with
  | nil => simp [GetAll.loop] at h
  | cons cols rest ih =>
    unfold GetAll.loop at h
    split at h
    · rename_i a err hscan
      refine ⟨cols, List.mem_cons_self _ _, ?_⟩
      rw [scanArticle_error_indep cols Article.zero scratch, hscan]
      exact h
    · obtain ⟨c, hc, he⟩ := ih _ _ h
      exact ⟨c, List.mem_cons_of_mem _ hc, he⟩

/-- C7: when the select-all query yields N rows that all scan, `GetAll` returns
no error and the N articles holding the fields of the rows, in the order the
rows were yielded; for N = 0 the result is the empty slice and no error. -/
theorem GetAll_returns_rows (db : DB) (rows : sql.Rows) (arts : List Article)
    (hquery : db.DB.Query getAllStatement [] = .ok rows)
    (hrows : List.Forall₂ RowOf rows.pending arts) :
    GetAll db = (some arts, none) ∧ arts.length = rows.pending.length ∧
      (rows.pending = [] → GetAll db = (some [], none)) := by
  have hall : GetAll db = (some arts, none) := by
    simp [GetAll, hquery, GetAll_loop_of_rowOf hrows]
  refine ⟨hall, hrows.length_eq.symm, ?_⟩
  intro hnil
  rw [hnil] at hrows
  rw [hall, List.forall₂_nil_left_iff.mp hrows]

/-- C7 at the inputs of `TestGetAll` (two rows) and of `TestGetAllEmpty`. -/
theorem GetAll_returns_rows_witness :
    GetAll (queryDB (rowsOf [articleRow article1, articleRow article2]))
        = (some [article1, article2], none) ∧
      GetAll (queryDB (rowsOf [])) = (some [], none) :=
  ⟨(GetAll_returns_rows (queryDB (rowsOf [articleRow article1, articleRow article2]))
      (rowsOf [articleRow article1, articleRow article2]) [article1, article2] rfl
      (List.Forall₂.cons (rowOf_articleRow article1)
        (List.Forall₂.cons (rowOf_articleRow article2) List.Forall₂.nil))).1,
   (GetAll_returns_rows (queryDB (rowsOf [])) (rowsOf []) [] rfl List.Forall₂.nil).2.2 rfl⟩

/-- The two failures `GetAll` does report: a failed query, and a row that does
not scan after any number of rows that did. -/
theorem GetAll_reports_query_and_scan_errors (db : DB) :
    (∀ e, db.DB.Query getAllStatement [] = .error e → GetAll db = (none, some e)) ∧
    (∀ rows before arts cols after e, db.DB.Query getAllStatement [] = .ok rows →
      rows.pending = before ++ cols :: after → List.Forall₂ RowOf before arts →
      (scanArticle cols Article.zero).2 = some e → GetAll db = (none, some e)) := by
  constructor
  · intro e h
    simp [GetAll, h]
  · intro rows before arts cols after e hq hp hb hs
    simp [GetAll, hq, hp, GetAll_loop_scan_error hb cols after e hs]

/-- A second row whose title is NULL: the scan of that row fails after it wrote
the id, and `GetAll` returns the nil slice with the error of the conversion. -/
theorem GetAll_null_title :
    GetAll (queryDB (rowsOf [articleRow article1,
        [int64Cell 2, nullCell, textCell "body 2", textCell "author 2"]]))
      = (none, some (.external "converting NULL to string is unsupported")) :=
  rfl

/-- C8, the case the code misses: the query succeeds, the result set yields
the row of the first article and then stops on a lost connection, which the
rows report through `Err`; `GetAll` returns that one article and no error. -/
theorem GetAll_ignores_iteration_error :
    (queryDB brokenRows).DB.Query getAllStatement [] = .ok brokenRows ∧
      brokenRows.Err = some errBadConn ∧
      GetAll (queryDB brokenRows) = (some [article1], none) :=
  ⟨rfl, rfl, rfl⟩

/-- C9: in `Create`, `GetById`, `Update` and `Delete` an error reported by the
database call (the insert query, the select query, the execution of the update
or the lookup of its affected rows, the execution of the delete) is returned
as it is, with the zero article where an article is returned; and every error
these operations return is such a reported error, except the "No row updated"
of `Update` after a count of zero; `GetAll` too returns only errors of the
query or of the scan of a row. -/
theorem errors_returned_unwrapped (db : DB) :
    (∀ title body author e, (createQuery db title body author).2 = some e →
      Create db title body author = (Article.zero, some e)) ∧
    (∀ id e, (getByIdQuery db id).2 = some e → GetById db id = (Article.zero, some e)) ∧
    (∀ article e, updateExec db article = .error e →
      Update db article = (Article.zero, some e)) ∧
    (∀ article result e, updateExec db article = .ok result →
      result.RowsAffected = .error e → Update db article = (Article.zero, some e)) ∧
    (∀ id e, db.DB.Exec deleteStatement [.int64 id] = .error e → Delete db id = some e) ∧
    (∀ title body author e, (Create db title body author).2 = some e →
      (createQuery db title body author).2 = some e) ∧
    (∀ id e, (GetById db id).2 = some e → (getByIdQuery db id).2 = some e) ∧
    (∀ id e, Delete db id = some e → db.DB.Exec deleteStatement [.int64 id] = .error e) ∧
    (∀ article e, (Update db article).2 = some e →
      updateExec db article = .error e ∨
      (∃ result, updateExec db article = .ok result ∧ result.RowsAffected = .error e) ∨
      (e = errors.New "No row updated" ∧
        ∃ result, updateExec db article = .ok result ∧ result.RowsAffected = .ok 0)) ∧
    (∀ e, (GetAll db).2 = some e →
      db.DB.Query getAllStatement [] = .error e ∨
      ∃ rows cols, db.DB.Query getAllStatement [] = .ok rows ∧ cols ∈ rows.pending ∧
        (scanArticle cols Article.zero).2 = some e) := by
  refine ⟨?_, ?_, ?_, ?_, ?_, ?_, ?_, ?_, ?_, ?_⟩
  · intro title body author e h
    unfold Create
    split <;> simp_all
  · intro id e h
    unfold GetById
    split <;> simp_all
  · intro article e h
    simp [Update, h]
  · intro article result e h hc
    simp [Update, h, hc]
  · intro id e h
    simp [Delete, h]
  · intro title body author e h
    unfold Create at h
    split at h <;> simp_all
  · intro id e h
    unfold GetById at h
    split at h <;> simp_all
  · intro id e h
    unfold Delete at h
    split at h <;> simp_all
  · intro article e h
    unfold Update at h
    cases hexec : updateExec db article with
    | error e0 => simp_all
    | ok result =>
      cases hcount : result.RowsAffected with
      | error e0 => simp_all
      | ok count =>
        by_cases hz : count = 0
        · right; right
          simp_all
        · simp_all
  · intro e h
    unfold GetAll at h
    cases hquery : db.DB.Query getAllStatement [] with
    | error e0 => simp_all
    | ok rows =>
      right
      rw [hquery] at h
      obtain ⟨cols, hmem, hscan⟩ := GetAll_loop_error_origin _ _ _ _ h
      exact ⟨rows, cols, rfl, hmem, hscan⟩

/-- C9 at the input of `TestCreateWithDuplicateTitle` (the insert is rejected
by a unique constraint), and at a handle that cannot report the affected rows
of an update. -/
theorem errors_returned_unwrapped_witness :
    Create duplicateDB "title" "body" "author" = (Article.zero, some errDuplicate) ∧
      Update noCountDB article1
        = (Article.zero, some (.external "no RowsAffected available")) :=
  ⟨(errors_returned_unwrapped duplicateDB).1 "title" "body" "author" errDuplicate rfl,
   (errors_returned_unwrapped noCountDB).2.2.2.1 article1
      ⟨.ok 0, .error (.external "no RowsAffected available")⟩
      (.external "no RowsAffected available") rfl rfl⟩

/-- C10: `Connect` returns a store with no error exactly when the open and the
ping that follows it both succeed, and that store wraps the handle that was
pinged; when the open fails or the ping fails it returns no store and the error
of that step; it never returns a store together with an error. -/
theorem Connect_store_iff (sqlOpen : String → String → Except Error sql.DB)
    (dataSourceName : String) :
    ((∃ store, Connect sqlOpen dataSourceName = (some store, none)) ↔
      ∃ db, sqlOpen "postgres" dataSourceName = .ok db ∧ db.Ping = none) ∧
    (∀ e, sqlOpen "postgres" dataSourceName = .error e →
      Connect sqlOpen dataSourceName = (none, some e)) ∧
    (∀ db e, sqlOpen "postgres" dataSourceName = .ok db → db.Ping = some e →
      Connect sqlOpen dataSourceName = (none, some e)) ∧
    (∀ store, (Connect sqlOpen dataSourceName).1 = some store →
      (Connect sqlOpen dataSourceName).2 = none ∧
      sqlOpen "postgres" dataSourceName = .ok store.DB ∧ store.DB.Ping = none) ∧
    ((Connect sqlOpen dataSourceName).1 = none ↔ (Connect sqlOpen dataSourceName).2 ≠ none) := by
  unfold Connect
  cases hopen : sqlOpen "postgres" dataSourceName with
  | error e => simp
  | ok db =>
    cases hping : db.Ping with
    | some e =>
      simp only [hping]
      refine ⟨by simp [hping], by simp, ?_, by simp, by simp⟩
      intro db1 e1 hdb he
      cases hdb
      rw [hping] at he
      cases he
      rfl
    | none =>
      simp only [hping]
      refine ⟨?_, ?_, ?_, ?_, ?_⟩
      · simp [hping]
      · simp
      · intro db1 e1 hdb he
        cases hdb
        rw [hping] at he
        cases he
      · intro store hs
        simp only [Option.some.injEq] at hs
        subst hs
        simp [hping]
      · simp

/-- C10 at the input of `TestConnect` on a server that does not answer the
ping, with a driver that rejects the open, and on a server that answers. -/
theorem Connect_store_iff_witness :
    Connect (openTo closedDB)
        "postgres://postgres:p@localhost/articles?sslmode=disable" = (none, some errClosed) ∧
      (Connect openFails "postgres://postgres:p@localhost/articles?sslmode=disable").1 = none ∧
      ∃ store, Connect (openTo (queryDB (rowsOf [])).DB) "" = (some store, none) :=
  ⟨(Connect_store_iff (openTo closedDB)
      "postgres://postgres:p@localhost/articles?sslmode=disable").2.2.1 closedDB errClosed
      rfl rfl,
   (Connect_store_iff openFails
      "postgres://postgres:p@localhost/articles?sslmode=disable").2.2.2.2.2 (by simp [Connect, openFails]),
   (Connect_store_iff (openTo (queryDB (rowsOf [])).DB) "").1.2
      ⟨(queryDB (rowsOf [])).DB, rfl, rfl⟩⟩

end ArticleManager
